import Mathlib

/-!
Verification of the mce-operator-bundle reporting scripts.

Shallow embedding of the pure cores of `scripts/check_dummy_shas.py`,
`scripts/scan_cves.py`, `scripts/verify_images.py` and
`scripts/slack_cve_report.py`: the digest classifier, the two scan-artifact
parsers, the per-image result recording, the scan comparator and the ICSP
redirect rule.  File reading and JSON decoding are abstracted as an
`Option TrivyData` argument (`none` = unreadable or syntactically malformed
artifact, exactly the inputs on which the Python `except` branches fire);
everything else is translated statement for statement from the source.
-/

namespace MCE

/-! ### Digest classifier (scripts/check_dummy_shas.py) -/

/-- Model of Python `re.match` against a pattern of the shape
`^sha256:BODY$`: the string must start with `sha256:`, and the remaining
characters must satisfy `body` either wholly or — because Python `$` also
matches just before a newline at the end of the string — after dropping a
single trailing newline. -/
def matchesAnchored (body : List Char → Bool) (d : String) : Bool :=
  "sha256:".data.isPrefixOf d.data &&
    (body (d.data.drop 7) ||
      ((d.data.drop 7).getLast? == some '\n' && body (d.data.drop 7).dropLast))

/-- Body of `0+`: one or more zero characters. -/
def zerosBody (l : List Char) : Bool :=
  !l.isEmpty && l.all (fun c => c == '0')

/-- Body of `(.)\1+`: a first character (not a newline, which `.` does not
match) followed by one or more further copies of that same character. -/
def repeatedBody : List Char → Bool
  | [] => false
  | c :: rest => !(c == '\n') && !rest.isEmpty && rest.all (fun x => x == c)

/-- Body of `[a-f0-9]\x7b64\x7d`: exactly 64 lowercase-hex characters. -/
def hex64Body (l : List Char) : Bool :=
  l.length == 64 &&
    l.all (fun c => (decide ('a' ≤ c) && decide (c ≤ 'f')) ||
      (decide ('0' ≤ c) && decide (c ≤ '9')))

/-- The five literal alternatives of the test-pattern search. -/
def dummyWords : List String := ["1234", "test", "dummy", "fake", "placeholder"]

/-- Substring containment (Python `in` / `re.search` with a literal
alternative): `sub` occurs contiguously somewhere in the list. -/
def containsSub (sub : List Char) : List Char → Bool
  | [] => sub.isEmpty
  | c :: cs => sub.isPrefixOf (c :: cs) || containsSub sub cs

/-- Translation of `is_dummy_sha`: an empty digest, an all-zero payload, a
known test substring in the lowercased digest (ASCII model of `str.lower`),
or a payload that is one character repeated. -/
def is_dummy_sha (digest : String) : Bool :=
  if digest == "" then true
  else if matchesAnchored zerosBody digest then true
  else if dummyWords.any (fun w => containsSub w.data (digest.data.map Char.toLower)) then
    true
  else if matchesAnchored repeatedBody digest then true
  else false

/-- Translation of `is_valid_sha_format`: `sha256:` followed by exactly 64
characters drawn from `[a-f0-9]`. -/
def is_valid_sha_format (digest : String) : Bool :=
  if digest == "" then false
  else matchesAnchored hex64Body digest

/-- The three digest classes of the spec; in the code `Placeholder` is the
DUMMY/PLACEHOLDER issue class and `Malformed` the INVALID FORMAT class. -/
inductive DigestClassification where
  | Placeholder
  | Malformed
  | Valid
  deriving DecidableEq, Repr

/-- Digest triage of `main` in scripts/check_dummy_shas.py: `is_dummy_sha`
is consulted first (DUMMY/PLACEHOLDER), then `is_valid_sha_format`
(INVALID FORMAT); a digest flagged by neither is `Valid`. -/
def classify (digest : String) : DigestClassification :=
  if is_dummy_sha digest then .Placeholder
  else if !(is_valid_sha_format digest) then .Malformed
  else .Valid

/-! ### Scan artifacts and the two parsers -/

/-- One vulnerability entry of a structured (JSON) scan artifact; the Python
code reads each field with `.get(key, '')`, so absent fields are the empty
string and every record carries all five. -/
structure Vuln where
  Severity : String
  VulnerabilityID : String
  Title : String
  FixedVersion : String
  PkgName : String
  deriving DecidableEq, Repr

/-- One element of the artifact's `Results` array. -/
structure TrivyResult where
  Vulnerabilities : List Vuln
  deriving DecidableEq, Repr

/-- A well-formed structured scan artifact. -/
structure TrivyData where
  Results : List TrivyResult
  deriving DecidableEq, Repr

/-- The vulnerabilities in the order the nested Python loops visit them. -/
def flattenVulns (d : TrivyData) : List Vuln :=
  (d.Results.map TrivyResult.Vulnerabilities).flatten

/-- ASCII model of Python `str.upper`, applied character by character. -/
def pyUpper (s : String) : String := String.mk (s.data.map Char.toUpper)

/-- Vulnerability counts as built by `parse_trivy_json_for_counts` in
scripts/scan_cves.py. -/
structure CveCount where
  critical : Nat
  high : Nat
  medium : Nat
  low : Nat
  total : Nat
  deriving DecidableEq, Repr

/-- One iteration of the counting loop of `parse_trivy_json_for_counts`:
the severity is uppercased and matched against the four literals; `total`
is incremented for every entry regardless. -/
def countsStep (c : CveCount) (v : Vuln) : CveCount :=
  let severity := pyUpper v.Severity
  let c1 :=
    if severity == "CRITICAL" then { c with critical := c.critical + 1 }
    else if severity == "HIGH" then { c with high := c.high + 1 }
    else if severity == "MEDIUM" then { c with medium := c.medium + 1 }
    else if severity == "LOW" then { c with low := c.low + 1 }
    else c
  { c1 with total := c1.total + 1 }

/-- Translation of `parse_trivy_json_for_counts` (scripts/scan_cves.py):
on an unreadable or malformed artifact the bare `except` returns the
all-zero counts. -/
def parse_trivy_json_for_counts (artifact : Option TrivyData) : CveCount :=
  match artifact with
  | none => ⟨0, 0, 0, 0, 0⟩
  | some d => (flattenVulns d).foldl countsStep ⟨0, 0, 0, 0, 0⟩

/-- One retained CVE detail record of `parse_trivy_json`
(scripts/slack_cve_report.py). -/
structure CveDetail where
  id : String
  severity : String
  title : String
  fixed_version : String
  pkg_name : String
  deriving DecidableEq, Repr

/-- Model of the Python slice `title[:80]`: the first 80 characters. -/
def truncate80 (s : String) : String :=
  String.mk (s.data.take 80)

/-- The detail record appended for a CRITICAL or HIGH entry: the uppercased
severity and the title truncated to 80 characters. -/
def detailOf (v : Vuln) : CveDetail :=
  { id := v.VulnerabilityID, severity := pyUpper v.Severity,
    title := truncate80 v.Title, fixed_version := v.FixedVersion,
    pkg_name := v.PkgName }

/-- The accumulator of the `parse_trivy_json` loop. -/
structure ParseState where
  critical : Nat
  high : Nat
  medium : Nat
  low : Nat
  critical_cves : List CveDetail
  high_cves : List CveDetail
  has_fix : Nat
  no_fix : Nat
  deriving DecidableEq, Repr

/-- One iteration of the `parse_trivy_json` loop: fixability is tracked for
every entry (Python truthiness of `fixed_version`), then the uppercased
severity is matched; CRITICAL and HIGH entries are appended to their lists. -/
def parseStep (s : ParseState) (v : Vuln) : ParseState :=
  let severity := pyUpper v.Severity
  let s1 :=
    if v.FixedVersion == "" then { s with no_fix := s.no_fix + 1 }
    else { s with has_fix := s.has_fix + 1 }
  if severity == "CRITICAL" then
    { s1 with critical := s1.critical + 1,
              critical_cves := s1.critical_cves ++ [detailOf v] }
  else if severity == "HIGH" then
    { s1 with high := s1.high + 1, high_cves := s1.high_cves ++ [detailOf v] }
  else if severity == "MEDIUM" then { s1 with medium := s1.medium + 1 }
  else if severity == "LOW" then { s1 with low := s1.low + 1 }
  else s1

/-- The all-zero, all-empty initial accumulator. -/
def initState : ParseState := ⟨0, 0, 0, 0, [], [], 0, 0⟩

/-- The per-image summary returned by `parse_trivy_json`. -/
structure TrivySummary where
  critical : Nat
  high : Nat
  medium : Nat
  low : Nat
  total : Nat
  details : List CveDetail
  has_fix : Nat
  no_fix : Nat
  deriving DecidableEq, Repr

/-- The dictionary `parse_trivy_json` returns: `total` is the sum of the
four buckets and `details` is every CRITICAL entry followed by the first
10 HIGH entries. -/
def summarize (st : ParseState) : TrivySummary :=
  { critical := st.critical, high := st.high, medium := st.medium, low := st.low,
    total := st.critical + st.high + st.medium + st.low,
    details := st.critical_cves ++ st.high_cves.take 10,
    has_fix := st.has_fix, no_fix := st.no_fix }

/-- Translation of `parse_trivy_json` (scripts/slack_cve_report.py): `none`
for an unreadable or malformed artifact (the bare `except` returns None),
otherwise the summary of the single pass over all vulnerabilities. -/
def parse_trivy_json (artifact : Option TrivyData) : Option TrivySummary :=
  artifact.map (fun d => summarize ((flattenVulns d).foldl parseStep initState))

/-! ### Per-image recording by `main` in scripts/slack_cve_report.py -/

/-- What the report directory holds for one image: a JSON report (whose
content may be unparseable), only a text report, or nothing. -/
inductive ReportFile where
  | jsonFile (artifact : Option TrivyData)
  | txtFile
  | missing
  deriving Repr

/-- One entry of the `results` list built by `main`. -/
structure ScanResult where
  image : String
  status : String
  cve_count : Option TrivySummary
  deriving DecidableEq, Repr

/-- Per-image recording of `main` (scripts/slack_cve_report.py): a JSON
report that parses is a success carrying its counts, a JSON report that
fails to parse is recorded as failed, a text report is recorded as a
success with all-zero counts, a missing report as failed. -/
def record_result (image_key : String) : ReportFile → ScanResult
  | .jsonFile a =>
    match parse_trivy_json a with
    | some c => { image := image_key, status := "success", cve_count := some c }
    | none => { image := image_key, status := "failed", cve_count := none }
  | .txtFile =>
    { image := image_key, status := "success",
      cve_count := some { critical := 0, high := 0, medium := 0, low := 0,
                          total := 0, details := [], has_fix := 0, no_fix := 0 } }
  | .missing => { image := image_key, status := "failed", cve_count := none }

/-! ### Scan comparator (`compare_scan_results`, scripts/slack_cve_report.py) -/

/-- One entry of the `improved` or `worsened` list. -/
structure TrendEntry where
  image : String
  previous : Nat
  current : Nat
  delta : Int
  prev_critical : Nat
  curr_critical : Nat
  deriving DecidableEq, Repr

/-- The `net_change` record. -/
structure NetChange where
  critical : Int
  high : Int
  total : Int
  deriving DecidableEq, Repr

/-- The comparison dictionary returned by `compare_scan_results`. -/
structure Comparison where
  new_components : List String
  removed_components : List String
  improved : List TrendEntry
  worsened : List TrendEntry
  unchanged : List String
  net_change : NetChange
  deriving DecidableEq, Repr

/-- The `current_dict` construction: keep results whose status is success
and whose counts are present (Python truthiness of `result.get`). -/
def buildCurrentDict (current_results : List ScanResult) :
    List (String × TrivySummary) :=
  current_results.filterMap (fun r =>
    if r.status == "success" then r.cve_count.map (fun c => (r.image, c)) else none)

/-- The trend signal of the comparator: critical plus high. -/
def severityWeight (s : TrivySummary) : Nat := s.critical + s.high

/-- The record appended to `improved` or `worsened` for one shared key. -/
def trendEntry (k : String) (cur prev : TrivySummary) : TrendEntry :=
  { image := k, previous := severityWeight prev, current := severityWeight cur,
    delta := (severityWeight cur : Int) - (severityWeight prev : Int),
    prev_critical := prev.critical, curr_critical := cur.critical }

/-- The `improved` arm of the comparison loop for one key of
`current_dict`: a shared key whose current weight is below its previous
weight. -/
def pickImproved (previous_results : List (String × TrivySummary))
    (kc : String × TrivySummary) : Option TrendEntry :=
  match previous_results.lookup kc.1 with
  | none => none
  | some p =>
    if severityWeight kc.2 < severityWeight p then some (trendEntry kc.1 kc.2 p)
    else none

/-- The `worsened` arm: a shared key whose current weight exceeds its
previous weight. -/
def pickWorsened (previous_results : List (String × TrivySummary))
    (kc : String × TrivySummary) : Option TrendEntry :=
  match previous_results.lookup kc.1 with
  | none => none
  | some p =>
    if severityWeight p < severityWeight kc.2 then some (trendEntry kc.1 kc.2 p)
    else none

/-- The `unchanged` arm: a shared key whose weight moved in neither
direction (the `else` of the Python `if`/`elif`/`else` chain). -/
def pickUnchanged (previous_results : List (String × TrivySummary))
    (kc : String × TrivySummary) : Option String :=
  match previous_results.lookup kc.1 with
  | none => none
  | some p =>
    if severityWeight kc.2 < severityWeight p then none
    else if severityWeight p < severityWeight kc.2 then none
    else some kc.1

/-- Sum of the `critical` field over a mapping's values. -/
def sumCritical (d : List (String × TrivySummary)) : Nat :=
  (d.map (fun kc => kc.2.critical)).sum

/-- Sum of the `high` field over a mapping's values. -/
def sumHigh (d : List (String × TrivySummary)) : Nat :=
  (d.map (fun kc => kc.2.high)).sum

/-- Sum of the `total` field over a mapping's values. -/
def sumTotal (d : List (String × TrivySummary)) : Nat :=
  (d.map (fun kc => kc.2.total)).sum

/-- Translation of `compare_scan_results` (scripts/slack_cve_report.py).
The guard `if not previous_results: return None` is the `isEmpty` test.
The single Python pass that appends to `improved`/`worsened`/`unchanged`
is rendered as three passes over `current_dict` in the same iteration
order, each keeping one arm of the `if`/`elif`/`else` chain; element for
element the three lists are those the loop builds. -/
def compare_scan_results (current_results : List ScanResult)
    (previous_results : List (String × TrivySummary)) : Option Comparison :=
  if previous_results.isEmpty then none
  else
    let current_dict := buildCurrentDict current_results
    some
      { new_components :=
          (current_dict.map Prod.fst).filter
            (fun k => (previous_results.lookup k).isNone)
        removed_components :=
          (previous_results.map Prod.fst).filter
            (fun k => (current_dict.lookup k).isNone)
        improved := current_dict.filterMap (pickImproved previous_results)
        worsened := current_dict.filterMap (pickWorsened previous_results)
        unchanged := current_dict.filterMap (pickUnchanged previous_results)
        net_change :=
          { critical := (sumCritical current_dict : Int) - (sumCritical previous_results : Int)
            high := (sumHigh current_dict : Int) - (sumHigh previous_results : Int)
            total := (sumTotal current_dict : Int) - (sumTotal previous_results : Int) } }

/-- Wrap a vulnerability-count mapping as the list of successful scan
results that `main` hands to `compare_scan_results` for it. -/
def mkResults (m : List (String × TrivySummary)) : List ScanResult :=
  m.map (fun kc => { image := kc.1, status := "success", cve_count := some kc.2 })

/-! ### ICSP redirect (scripts/scan_cves.py and scripts/verify_images.py) -/

/-- One mirror rule of the ICSP configuration. -/
structure MirrorRule where
  source : String
  mirror : String
  deriving DecidableEq, Repr

/-- Model of Python `s.replace(pat, rep, 1)` on the character list: replace
the first occurrence of `pat`; an empty `pat` matches at the front. -/
def replaceFirstAux (pat rep : List Char) : List Char → List Char
  | [] => if pat.isEmpty then rep else []
  | c :: cs =>
    if pat.isPrefixOf (c :: cs) then rep ++ (c :: cs).drop pat.length
    else c :: replaceFirstAux pat rep cs

/-- String version of the single-occurrence replace. -/
def pyReplaceFirst (s pat rep : String) : String :=
  String.mk (replaceFirstAux pat.data rep.data s.data)

/-- Translation of `apply_icsp_redirect` (identical in scripts/scan_cves.py
and scripts/verify_images.py): scan the rules in order, skip any rule whose
source or mirror is empty (Python truthiness), and on the first remaining
rule whose source is a prefix of the reference return the single-occurrence
replacement together with the fired rule's source. -/
def apply_icsp_redirect (image_ref : String) :
    List MirrorRule → String × Option String
  | [] => (image_ref, none)
  | m :: rest =>
    if m.source != "" && m.mirror != "" && m.source.data.isPrefixOf image_ref.data then
      (pyReplaceFirst image_ref m.source m.mirror, some m.source)
    else apply_icsp_redirect image_ref rest

/-- Modelled from the spec (amended): the first rule with non-empty source
and non-empty mirror whose source is a prefix of the reference fires,
substituting that leading prefix by the mirror value; with no such rule the
reference is unchanged and no rule is recorded. -/
def ruleApplies (image_ref : String) (m : MirrorRule) : Bool :=
  m.source != "" && m.mirror != "" && m.source.data.isPrefixOf image_ref.data

/-- Reference behaviour of the redirect step stated from the (amended) spec
wording, to be compared against `apply_icsp_redirect`. -/
def redirectSpec (image_ref : String) (rules : List MirrorRule) :
    String × Option String :=
  match rules.find? (ruleApplies image_ref) with
  | some m =>
    (String.mk (m.mirror.data ++ image_ref.data.drop m.source.data.length),
      some m.source)
  | none => (image_ref, none)

/-! ### Spec-side counting functions and concrete test artifacts -/

/-- Count of entries whose uppercased severity is `sev`. -/
def sevCount (sev : String) (l : List Vuln) : Nat :=
  l.countP (fun v => pyUpper v.Severity == sev)

/-- The detail record a CRITICAL entry contributes, as an option. -/
def criticalPick (v : Vuln) : Option CveDetail :=
  if pyUpper v.Severity == "CRITICAL" then some (detailOf v) else none

/-- The detail record a HIGH entry contributes, as an option. -/
def highPick (v : Vuln) : Option CveDetail :=
  if pyUpper v.Severity == "HIGH" then some (detailOf v) else none

/-- A single-entry artifact whose severity is outside the four classes. -/
def unknownSevArtifact : TrivyData :=
  ⟨[⟨[⟨"UNKNOWN", "CVE-2024-0001", "a title", "", "pkg"⟩]⟩]⟩

/-- An artifact with 2 CRITICAL, 3 HIGH and 1 MEDIUM entries (severities in
mixed case, interleaved in scan order). -/
def artifact8 : TrivyData :=
  ⟨[⟨[⟨"CRITICAL", "CVE-1", "t1", "", ""⟩,
      ⟨"high", "CVE-2", "t2", "", ""⟩,
      ⟨"Medium", "CVE-3", "t3", "", ""⟩,
      ⟨"HIGH", "CVE-4", "t4", "", ""⟩,
      ⟨"critical", "CVE-5", "t5", "", ""⟩,
      ⟨"HIGH", "CVE-6", "t6", "", ""⟩]⟩]⟩

/-- A one-critical, zero-high summary used as a concrete comparison input. -/
def oneCritical : TrivySummary := ⟨1, 0, 0, 0, 1, [], 0, 0⟩

/-- A two-critical, zero-high summary used as a concrete comparison input. -/
def twoCritical : TrivySummary := ⟨2, 0, 0, 0, 2, [], 0, 0⟩

/-! ### Association-list lemmas (Python dict membership and indexing) -/

/-- A successful lookup names a binding of the list. -/
theorem lookup_some_mem {α : Type} {l : List (String × α)} {k : String} {v : α}
    (h : l.lookup k = some v) : (k, v) ∈ l := by
  induction l with
  | nil => simp [List.lookup] at h
  | cons p t ih =>
    rw [List.lookup] at h
    by_cases hk : (k == p.1) = true
    · rw [hk] at h
      simp only [Option.some.injEq] at h
      have : k = p.1 := eq_of_beq hk
      subst this
      subst h
      exact List.mem_cons_self _ _
    · rw [Bool.eq_false_iff.mpr hk] at h
      exact List.mem_cons_of_mem _ (ih h)

/-- Lookup fails exactly on keys outside the mapping. -/
theorem lookup_none_iff {α : Type} (l : List (String × α)) (k : String) :
    l.lookup k = none ↔ k ∉ l.map Prod.fst := by
  induction l with
  | nil => simp [List.lookup]
  | cons p t ih =>
    rw [List.lookup]
    by_cases hk : (k == p.1) = true
    · have : k = p.1 := eq_of_beq hk
      subst this
      simp [hk]
    · have hne : k ≠ p.1 := fun he => hk (by simp [he])
      rw [Bool.eq_false_iff.mpr hk]
      simp [ih, hne]

/-- With distinct keys, every binding is found by lookup. -/
theorem mem_lookup_of_nodup {α : Type} {l : List (String × α)}
    (hnd : (l.map Prod.fst).Nodup) {k : String} {v : α} (h : (k, v) ∈ l) :
    l.lookup k = some v := by
  induction l with
  | nil => simp at h
  | cons p t ih =>
    rw [List.map_cons, List.nodup_cons] at hnd
    rw [List.lookup]
    rcases List.mem_cons.mp h with h1 | h1
    · rw [← h1]
      simp
    · have hk : k ≠ p.1 := by
        intro he
        exact hnd.1 (he ▸ (List.mem_map.mpr ⟨(k, v), h1, rfl⟩))
      rw [beq_eq_false_iff_ne.mpr hk]
      exact ih hnd.2 h1

/-- A key of the mapping has a lookup value. -/
theorem exists_lookup_of_mem_keys {α : Type} {l : List (String × α)} {k : String}
    (h : k ∈ l.map Prod.fst) : ∃ v, l.lookup k = some v := by
  cases hv : l.lookup k with
  | none => exact absurd h ((lookup_none_iff l k).mp hv)
  | some v => exact ⟨v, rfl⟩

/-- A filterMap whose function succeeds everywhere is a map. -/
theorem filterMap_eq_map_of_forall {α β : Type} {f : α → Option β} {g : α → β}
    {l : List α} (h : ∀ a ∈ l, f a = some (g a)) : l.filterMap f = l.map g := by
  induction l with
  | nil => rfl
  | cons a t ih =>
    rw [List.filterMap_cons, h a (List.mem_cons_self _ _), List.map_cons,
      ih (fun b hb => h b (List.mem_cons_of_mem _ hb))]

/-! ### Characterizing the parser folds -/

/-- The counting loop of scan_cves sorts each entry into at most one bucket
and counts every entry in `total`. -/
theorem countsFold (l : List Vuln) (c : CveCount) :
    l.foldl countsStep c =
      { critical := c.critical + sevCount "CRITICAL" l,
        high := c.high + sevCount "HIGH" l,
        medium := c.medium + sevCount "MEDIUM" l,
        low := c.low + sevCount "LOW" l,
        total := c.total + l.length } := by
  induction l generalizing c with
  | nil => simp [sevCount]
  | cons v t ih =>
    rw [List.foldl_cons, ih]
    simp only [countsStep, sevCount, List.countP_cons, List.length_cons]
    by_cases hc : (pyUpper v.Severity == "CRITICAL") = true
    · simp [hc, eq_of_beq hc, CveCount.mk.injEq]
      omega
    · by_cases hh : (pyUpper v.Severity == "HIGH") = true
      · simp [hc, hh, eq_of_beq hh, CveCount.mk.injEq]
        omega
      · by_cases hm : (pyUpper v.Severity == "MEDIUM") = true
        · simp [hc, hh, hm, eq_of_beq hm, CveCount.mk.injEq]
          omega
        · by_cases hl : (pyUpper v.Severity == "LOW") = true
          · simp [hc, hh, hm, hl, eq_of_beq hl, CveCount.mk.injEq]
            omega
          · simp [hc, hh, hm, hl, CveCount.mk.injEq]
            omega

/-- The slack parsing loop: the four buckets count their exact severities,
the CRITICAL and HIGH detail lists keep scan order, and fixability splits on
emptiness of the fixed-version field. -/
theorem parseFold (l : List Vuln) (s : ParseState) :
    l.foldl parseStep s =
      { critical := s.critical + sevCount "CRITICAL" l,
        high := s.high + sevCount "HIGH" l,
        medium := s.medium + sevCount "MEDIUM" l,
        low := s.low + sevCount "LOW" l,
        critical_cves := s.critical_cves ++ l.filterMap criticalPick,
        high_cves := s.high_cves ++ l.filterMap highPick,
        has_fix := s.has_fix + l.countP (fun v => !(v.FixedVersion == "")),
        no_fix := s.no_fix + l.countP (fun v => v.FixedVersion == "") } := by
  induction l generalizing s with
  | nil => simp [sevCount]
  | cons v t ih =>
    rw [List.foldl_cons, ih]
    simp only [parseStep, sevCount, List.countP_cons, List.filterMap_cons,
      criticalPick, highPick]
    by_cases hf : (v.FixedVersion == "") = true <;>
      by_cases hc : (pyUpper v.Severity == "CRITICAL") = true
    all_goals
      first
      | (simp [hf, hc, eq_of_beq hc, ParseState.mk.injEq, List.append_assoc]
         omega)
      | (by_cases hh : (pyUpper v.Severity == "HIGH") = true
         · simp [hf, hc, hh, eq_of_beq hh, ParseState.mk.injEq, List.append_assoc]
           omega
         · by_cases hm : (pyUpper v.Severity == "MEDIUM") = true
           · simp [hf, hc, hh, hm, eq_of_beq hm, ParseState.mk.injEq]
             omega
           · by_cases hl : (pyUpper v.Severity == "LOW") = true
             · simp [hf, hc, hh, hm, hl, eq_of_beq hl, ParseState.mk.injEq]
               omega
             · simp [hf, hc, hh, hm, hl, ParseState.mk.injEq]
               omega)

/-! ### Characterizing the comparator -/

/-- Rebuilding the dictionary from wrapped successful results is the
identity. -/
theorem buildCurrentDict_mkResults (m : List (String × TrivySummary)) :
    buildCurrentDict (mkResults m) = m := by
  induction m with
  | nil => rfl
  | cons p t ih =>
    simp [mkResults, buildCurrentDict] at ih ⊢
    exact ih

/-- Casting a summed Nat field into the integers commutes with summation. -/
theorem sum_field_cast (f : String × TrivySummary → Nat)
    (d : List (String × TrivySummary)) :
    (((d.map f).sum : Nat) : Int) = (d.map (fun kc => (f kc : Int))).sum := by
  induction d with
  | nil => rfl
  | cons p t ih => simp [List.map_cons, List.sum_cons, ih]

/-- With a non-empty previous mapping, the comparator produces exactly the
record built from the current dictionary. -/
theorem compare_some (A B : List (String × TrivySummary)) (hne : B ≠ []) :
    compare_scan_results (mkResults A) B =
      some
        { new_components := (A.map Prod.fst).filter (fun k => (B.lookup k).isNone),
          removed_components := (B.map Prod.fst).filter (fun k => (A.lookup k).isNone),
          improved := A.filterMap (pickImproved B),
          worsened := A.filterMap (pickWorsened B),
          unchanged := A.filterMap (pickUnchanged B),
          net_change :=
            { critical := (sumCritical A : Int) - (sumCritical B : Int),
              high := (sumHigh A : Int) - (sumHigh B : Int),
              total := (sumTotal A : Int) - (sumTotal B : Int) } } := by
  have hbe : B.isEmpty = false := by
    cases B with
    | nil => exact absurd rfl hne
    | cons b t => rfl
  rw [compare_scan_results, if_neg (by simp [hbe])]
  rw [buildCurrentDict_mkResults]

/-- Unfolding the `improved` arm. -/
theorem pickImproved_eq_some (B : List (String × TrivySummary))
    (kc : String × TrivySummary) (e : TrendEntry) :
    pickImproved B kc = some e ↔
      ∃ p, B.lookup kc.1 = some p ∧ severityWeight kc.2 < severityWeight p ∧
        e = trendEntry kc.1 kc.2 p := by
  unfold pickImproved
  cases h : B.lookup kc.1 with
  | none => simp
  | some p =>
    by_cases hlt : severityWeight kc.2 < severityWeight p
    · simp [hlt, eq_comm]
    · simp [hlt]

/-- Unfolding the `worsened` arm. -/
theorem pickWorsened_eq_some (B : List (String × TrivySummary))
    (kc : String × TrivySummary) (e : TrendEntry) :
    pickWorsened B kc = some e ↔
      ∃ p, B.lookup kc.1 = some p ∧ severityWeight p < severityWeight kc.2 ∧
        e = trendEntry kc.1 kc.2 p := by
  unfold pickWorsened
  cases h : B.lookup kc.1 with
  | none => simp
  | some p =>
    by_cases hlt : severityWeight p < severityWeight kc.2
    · simp [hlt, eq_comm]
    · simp [hlt]

/-- Unfolding the `unchanged` arm. -/
theorem pickUnchanged_eq_some (B : List (String × TrivySummary))
    (kc : String × TrivySummary) (k : String) :
    pickUnchanged B kc = some k ↔
      ∃ p, B.lookup kc.1 = some p ∧ severityWeight kc.2 = severityWeight p ∧
        k = kc.1 := by
  unfold pickUnchanged
  cases h : B.lookup kc.1 with
  | none => simp
  | some p =>
    by_cases hlt : severityWeight kc.2 < severityWeight p
    · simp [hlt]
      omega
    · by_cases hgt : severityWeight p < severityWeight kc.2
      · simp [hlt, hgt]
        omega
      · simp [hlt, hgt, eq_comm]
        omega

/-- A key appears in the improved list exactly when it is bound on both
sides with strictly smaller current weight. -/
theorem mem_improved_iff (A B : List (String × TrivySummary))
    (hA : (A.map Prod.fst).Nodup) (k : String) :
    (∃ e ∈ A.filterMap (pickImproved B), e.image = k) ↔
      ∃ cv p, A.lookup k = some cv ∧ B.lookup k = some p ∧
        severityWeight cv < severityWeight p := by
  constructor
  · rintro ⟨e, he, himg⟩
    obtain ⟨kc, hkc, hpick⟩ := List.mem_filterMap.mp he
    obtain ⟨p, hlk, hlt, hee⟩ := (pickImproved_eq_some B kc e).mp hpick
    have hk : kc.1 = k := by rw [hee] at himg; exact himg
    subst hk
    exact ⟨kc.2, p, mem_lookup_of_nodup hA hkc, hlk, hlt⟩
  · rintro ⟨cv, p, h1, h2, hlt⟩
    exact ⟨trendEntry k cv p,
      List.mem_filterMap.mpr ⟨(k, cv), lookup_some_mem h1,
        (pickImproved_eq_some B (k, cv) _).mpr ⟨p, h2, hlt, rfl⟩⟩, rfl⟩

/-- A key appears in the worsened list exactly when it is bound on both
sides with strictly larger current weight. -/
theorem mem_worsened_iff (A B : List (String × TrivySummary))
    (hA : (A.map Prod.fst).Nodup) (k : String) :
    (∃ e ∈ A.filterMap (pickWorsened B), e.image = k) ↔
      ∃ cv p, A.lookup k = some cv ∧ B.lookup k = some p ∧
        severityWeight p < severityWeight cv := by
  constructor
  · rintro ⟨e, he, himg⟩
    obtain ⟨kc, hkc, hpick⟩ := List.mem_filterMap.mp he
    obtain ⟨p, hlk, hlt, hee⟩ := (pickWorsened_eq_some B kc e).mp hpick
    have hk : kc.1 = k := by rw [hee] at himg; exact himg
    subst hk
    exact ⟨kc.2, p, mem_lookup_of_nodup hA hkc, hlk, hlt⟩
  · rintro ⟨cv, p, h1, h2, hlt⟩
    exact ⟨trendEntry k cv p,
      List.mem_filterMap.mpr ⟨(k, cv), lookup_some_mem h1,
        (pickWorsened_eq_some B (k, cv) _).mpr ⟨p, h2, hlt, rfl⟩⟩, rfl⟩

/-- A key appears in the unchanged list exactly when it is bound on both
sides with equal weights. -/
theorem mem_unchanged_iff (A B : List (String × TrivySummary))
    (hA : (A.map Prod.fst).Nodup) (k : String) :
    k ∈ A.filterMap (pickUnchanged B) ↔
      ∃ cv p, A.lookup k = some cv ∧ B.lookup k = some p ∧
        severityWeight cv = severityWeight p := by
  constructor
  · intro hk
    obtain ⟨kc, hkc, hpick⟩ := List.mem_filterMap.mp hk
    obtain ⟨p, hlk, heqw, hke⟩ := (pickUnchanged_eq_some B kc k).mp hpick
    subst hke
    exact ⟨kc.2, p, mem_lookup_of_nodup hA hkc, hlk, heqw⟩
  · rintro ⟨cv, p, h1, h2, heqw⟩
    exact List.mem_filterMap.mpr ⟨(k, cv), lookup_some_mem h1,
      (pickUnchanged_eq_some B (k, cv) k).mpr ⟨p, h2, heqw, rfl⟩⟩

/-- Membership in the new-components list. -/
theorem mem_new_iff (A B : List (String × TrivySummary)) (k : String) :
    k ∈ (A.map Prod.fst).filter (fun j => (B.lookup j).isNone) ↔
      k ∈ A.map Prod.fst ∧ B.lookup k = none := by
  simp [List.mem_filter, Option.isNone_iff_eq_none]

/-- Membership in the removed-components list. -/
theorem mem_removed_iff (A B : List (String × TrivySummary)) (k : String) :
    k ∈ (B.map Prod.fst).filter (fun j => (A.lookup j).isNone) ↔
      k ∈ B.map Prod.fst ∧ A.lookup k = none := by
  simp [List.mem_filter, Option.isNone_iff_eq_none]

/-! ### Claim theorems -/

/-- C1 (counterexample): on `sha256:` followed by 64 `a` characters the
classifier returns `Placeholder` (the repeated-character dummy pattern of
`is_dummy_sha` fires), not `Valid` as the claim states. -/
theorem classify_repeated_a_not_valid :
    classify ("sha256:" ++ String.mk (List.replicate 64 'a')) ≠
        DigestClassification.Valid ∧
      classify ("sha256:" ++ String.mk (List.replicate 64 'a')) =
        DigestClassification.Placeholder := by
  decide

/-- C1 (amended): the classifier's results on the three test inputs are
`Placeholder` for the all-zero digest, `Placeholder` (not `Valid`) for the
all-`a` digest — a payload that is one character repeated is a dummy
pattern — and `Malformed` for `not-a-digest`. -/
theorem classify_spec_test_vectors :
    classify ("sha256:" ++ String.mk (List.replicate 64 '0')) =
        DigestClassification.Placeholder ∧
      classify ("sha256:" ++ String.mk (List.replicate 64 'a')) =
        DigestClassification.Placeholder ∧
      classify "not-a-digest" = DigestClassification.Malformed := by
  decide

/-- C4 (counterexample): the empty digest is classified `Placeholder`, not
`Malformed`: `is_dummy_sha` returns true on the empty string and `main`
consults it before the format check. -/
theorem classify_empty_not_malformed :
    classify "" ≠ DigestClassification.Malformed ∧
      classify "" = DigestClassification.Placeholder := by
  decide

/-- C4 (amended): the empty digest falls in the Placeholder
(DUMMY/PLACEHOLDER) class: `is_dummy_sha` accepts it, and although its
format is invalid the dummy check has priority. -/
theorem classify_empty_placeholder :
    classify "" = DigestClassification.Placeholder ∧
      is_dummy_sha "" = true ∧ is_valid_sha_format "" = false := by
  decide

/-- C2 (counterexample): a well-formed artifact with one vulnerability of
severity `UNKNOWN` parses under slack's `parse_trivy_json` to a summary
with `total = 0` — the out-of-set entry is counted toward neither `total`
nor any bucket, contradicting the claim that it counts toward `total`. -/
theorem parse_trivy_json_unknown_severity :
    (flattenVulns unknownSevArtifact).length = 1 ∧
      (parse_trivy_json (some unknownSevArtifact)).map TrivySummary.total =
        some 0 := by
  decide

/-- C3 (counterexample): on an unreadable or malformed artifact
`parse_trivy_json_for_counts` (scripts/scan_cves.py) returns the all-zero
counts, byte-for-byte the same value it returns for a clean artifact with
no vulnerabilities — not a distinct failure value. -/
theorem counts_parser_zero_on_unparseable :
    parse_trivy_json_for_counts none = ⟨0, 0, 0, 0, 0⟩ ∧
      parse_trivy_json_for_counts none =
        parse_trivy_json_for_counts (some ⟨[]⟩) := by
  decide

/-- C5 (counterexample): for the empty mapping, `compare(A, A)` returns
`None` (the `if not previous_results` guard), so it does not yield the
zero net-change record the claim asserts for every mapping. -/
theorem compare_empty_self_none :
    compare_scan_results (mkResults ([] : List (String × TrivySummary))) [] =
      none := by
  decide

/-- C7 (counterexample): with a non-empty current mapping and an empty
previous mapping the comparator returns `None`, producing no `netChange`
at all even though the field sums differ. -/
theorem net_change_empty_previous_none :
    compare_scan_results (mkResults [("imgA", oneCritical)]) [] = none ∧
      sumCritical [("imgA", oneCritical)] ≠ sumCritical [] := by
  decide

/-- C9 (counterexample): a rule whose source is a prefix of the reference
but whose mirror value is empty is skipped by the code (Python truthiness
guard), so the reference is returned unchanged and no rule is recorded,
although the claim says the first rule whose source is a prefix fires. -/
theorem redirect_skips_empty_mirror :
    ("quay.io/").data.isPrefixOf ("quay.io/app").data = true ∧
      apply_icsp_redirect "quay.io/app" [⟨"quay.io/", ""⟩] =
        ("quay.io/app", none) := by
  decide

/-- A truncated title has at most 80 characters. -/
theorem truncate80_length (s : String) : (truncate80 s).length ≤ 80 := by
  show (s.data.take 80).length ≤ 80
  rw [List.length_take]
  exact min_le_left _ _

/-- A value produced by the CRITICAL arm is the entry's detail record. -/
theorem criticalPick_eq (v : Vuln) (e : CveDetail) (h : criticalPick v = some e) :
    e = detailOf v := by
  unfold criticalPick at h
  split at h
  · exact (Option.some.inj h).symm
  · cases h

/-- A value produced by the HIGH arm is the entry's detail record. -/
theorem highPick_eq (v : Vuln) (e : CveDetail) (h : highPick v = some e) :
    e = detailOf v := by
  unfold highPick at h
  split at h
  · exact (Option.some.inj h).symm
  · cases h

/-- C2 (amended): in `parse_trivy_json_for_counts` each bucket counts
exactly its own uppercased severity and `total` counts every entry, so an
out-of-set severity reaches `total` but no bucket; in slack's
`parse_trivy_json` the buckets are the same but `total` is the sum of the
four buckets, so an out-of-set severity is counted toward neither `total`
nor any bucket. -/
theorem severity_bucket_spec :
    (∀ d : TrivyData,
        parse_trivy_json_for_counts (some d) =
          { critical := sevCount "CRITICAL" (flattenVulns d),
            high := sevCount "HIGH" (flattenVulns d),
            medium := sevCount "MEDIUM" (flattenVulns d),
            low := sevCount "LOW" (flattenVulns d),
            total := (flattenVulns d).length }) ∧
      (∀ d : TrivyData, ∃ s, parse_trivy_json (some d) = some s ∧
        s.critical = sevCount "CRITICAL" (flattenVulns d) ∧
        s.high = sevCount "HIGH" (flattenVulns d) ∧
        s.medium = sevCount "MEDIUM" (flattenVulns d) ∧
        s.low = sevCount "LOW" (flattenVulns d) ∧
        s.total = sevCount "CRITICAL" (flattenVulns d) +
          sevCount "HIGH" (flattenVulns d) + sevCount "MEDIUM" (flattenVulns d) +
          sevCount "LOW" (flattenVulns d)) := by
  constructor
  · intro d
    show (flattenVulns d).foldl countsStep ⟨0, 0, 0, 0, 0⟩ = _
    rw [countsFold]
    simp
  · intro d
    refine ⟨_, rfl, ?_, ?_, ?_, ?_, ?_⟩ <;>
      simp [summarize, parseFold, initState]

/-- C3 (amended): slack's `parse_trivy_json` returns the distinct failure
value `None` exactly on unreadable or malformed artifacts, and its caller
records the corresponding image as a scan failure; but
`parse_trivy_json_for_counts` returns the all-zero summary on such input. -/
theorem parse_failure_spec :
    (∀ a : Option TrivyData, parse_trivy_json a = none ↔ a = none) ∧
      (∀ k : String, record_result k (ReportFile.jsonFile none) =
        { image := k, status := "failed", cve_count := none }) ∧
      (∀ k : String, record_result k ReportFile.missing =
        { image := k, status := "failed", cve_count := none }) ∧
      parse_trivy_json_for_counts none = ⟨0, 0, 0, 0, 0⟩ := by
  refine ⟨?_, fun k => rfl, fun k => rfl, rfl⟩
  intro a
  cases a <;> simp [parse_trivy_json]

/-- C8: the detail list is every CRITICAL entry followed by at most the
first 10 HIGH entries, in scan order within each severity, every title
truncated to at most 80 characters; and the concrete artifact with
2 CRITICAL, 3 HIGH and 1 MEDIUM entries yields total 6 and 5 details. -/
theorem parse_details_spec :
    (∀ d : TrivyData, ∃ s, parse_trivy_json (some d) = some s ∧
        s.details = (flattenVulns d).filterMap criticalPick ++
          ((flattenVulns d).filterMap highPick).take 10 ∧
        ∀ e ∈ s.details, e.title.length ≤ 80) ∧
      (parse_trivy_json (some artifact8)).map
        (fun s => (s.total, s.details.length)) = some (6, 5) := by
  constructor
  · intro d
    have hdet : (summarize ((flattenVulns d).foldl parseStep initState)).details =
        (flattenVulns d).filterMap criticalPick ++
          ((flattenVulns d).filterMap highPick).take 10 := by
      rw [parseFold]
      simp [summarize, initState]
    refine ⟨_, rfl, hdet, ?_⟩
    intro e he
    rw [hdet] at he
    rcases List.mem_append.mp he with h | h
    · obtain ⟨v, hv, hpick⟩ := List.mem_filterMap.mp h
      rw [criticalPick_eq v e hpick]
      exact truncate80_length _
    · obtain ⟨v, hv, hpick⟩ := List.mem_filterMap.mp (List.mem_of_mem_take h)
      rw [highPick_eq v e hpick]
      exact truncate80_length _
  · decide

/-- A non-empty string has a non-empty character list. -/
theorem data_ne_nil_of_ne_empty {s : String} (h : s ≠ "") : s.data ≠ [] := by
  intro hd
  apply h
  cases s with
  | mk d =>
    cases hd
    rfl

/-- Replacing the first occurrence of a non-empty pattern that is a prefix
substitutes it at the front. -/
theorem replaceFirst_at_front (pat rep l : List Char) (hne : pat ≠ [])
    (h : pat.isPrefixOf l = true) :
    replaceFirstAux pat rep l = rep ++ l.drop pat.length := by
  cases l with
  | nil =>
    cases pat with
    | nil => exact absurd rfl hne
    | cons c cs => simp [List.isPrefixOf] at h
  | cons c cs => simp [replaceFirstAux, h]

/-- C9 (amended): the redirect step applies the first rule in list order
with non-empty source and non-empty mirror whose source is a prefix of the
reference, replacing that leading prefix with the mirror value and
returning the fired rule's source; with no such rule, the reference is
returned unchanged and no rule is recorded. -/
theorem redirect_first_applicable (image_ref : String) (rules : List MirrorRule) :
    apply_icsp_redirect image_ref rules = redirectSpec image_ref rules := by
  induction rules with
  | nil => rfl
  | cons m rest ih =>
    by_cases h : ruleApplies image_ref m = true
    · have h' := h
      unfold ruleApplies at h'
      rw [Bool.and_eq_true, Bool.and_eq_true] at h'
      obtain ⟨⟨hs, hm⟩, hpre⟩ := h'
      rw [redirectSpec, List.find?_cons_of_pos _ h]
      rw [apply_icsp_redirect, if_pos (by rw [Bool.and_eq_true, Bool.and_eq_true]; exact ⟨⟨hs, hm⟩, hpre⟩)]
      unfold pyReplaceFirst
      rw [replaceFirst_at_front _ _ _ (data_ne_nil_of_ne_empty (bne_iff_ne.mp hs)) hpre]
    · have hskip : redirectSpec image_ref (m :: rest) = redirectSpec image_ref rest := by
        rw [redirectSpec, List.find?_cons_of_neg _ h, redirectSpec]
      rw [apply_icsp_redirect,
        if_neg (show ¬((m.source != "" && m.mirror != "" &&
          m.source.data.isPrefixOf image_ref.data) = true) from h), ih, hskip]

/-- C5 (amended): for every non-empty vulnerability-count mapping `A` with
distinct keys, comparing `A` against itself yields the zero net change,
empty new, removed, improved and worsened lists, and exactly the keys of
`A` (in order) as unchanged. -/
theorem compare_self_diag (A : List (String × TrivySummary)) (hne : A ≠ [])
    (hnd : (A.map Prod.fst).Nodup) :
    compare_scan_results (mkResults A) A =
      some ⟨[], [], [], [], A.map Prod.fst, ⟨0, 0, 0⟩⟩ := by
  rw [compare_some A A hne]
  have hlook : ∀ kc ∈ A, A.lookup kc.1 = some kc.2 := fun kc hkc =>
    mem_lookup_of_nodup hnd hkc
  refine congrArg some ?_
  simp only [Comparison.mk.injEq]
  refine ⟨?_, ?_, ?_, ?_, ?_, ?_⟩
  · refine List.filter_eq_nil_iff.mpr ?_
    intro k hk
    obtain ⟨kc, hkc, rfl⟩ := List.mem_map.mp hk
    simp [hlook kc hkc]
  · refine List.filter_eq_nil_iff.mpr ?_
    intro k hk
    obtain ⟨kc, hkc, rfl⟩ := List.mem_map.mp hk
    simp [hlook kc hkc]
  · refine List.filterMap_eq_nil_iff.mpr ?_
    intro kc hkc
    cases hpi : pickImproved A kc with
    | none => rfl
    | some e =>
      obtain ⟨p, hp, hlt, _⟩ := (pickImproved_eq_some A kc e).mp hpi
      rw [hlook kc hkc] at hp
      cases Option.some.inj hp
      exact absurd hlt (lt_irrefl _)
  · refine List.filterMap_eq_nil_iff.mpr ?_
    intro kc hkc
    cases hpi : pickWorsened A kc with
    | none => rfl
    | some e =>
      obtain ⟨p, hp, hlt, _⟩ := (pickWorsened_eq_some A kc e).mp hpi
      rw [hlook kc hkc] at hp
      cases Option.some.inj hp
      exact absurd hlt (lt_irrefl _)
  · exact filterMap_eq_map_of_forall (fun kc hkc =>
      (pickUnchanged_eq_some A kc kc.1).mpr ⟨kc.2, hlook kc hkc, rfl, rfl⟩)
  · simp [NetChange.mk.injEq]

/-- C5 (witness): the one-key mapping compared against itself. -/
theorem compare_self_diag_witness :
    compare_scan_results (mkResults [("img", oneCritical)]) [("img", oneCritical)] =
      some ⟨[], [], [], [], ["img"], ⟨0, 0, 0⟩⟩ :=
  compare_self_diag [("img", oneCritical)] (by decide) (by decide)

/-- C6: if a key is worsened in `compare(A, B)` then it is improved in
`compare(B, A)` with the negated severity-weight delta. -/
theorem compare_antisym_weight (A B : List (String × TrivySummary))
    (hA : (A.map Prod.fst).Nodup)
    (cAB : Comparison) (h1 : compare_scan_results (mkResults A) B = some cAB)
    (e : TrendEntry) (he : e ∈ cAB.worsened) :
    ∃ cBA, compare_scan_results (mkResults B) A = some cBA ∧
      ∃ e2 ∈ cBA.improved, e2.image = e.image ∧ e2.delta = -e.delta := by
  have hBne : B ≠ [] := by
    intro hB
    subst hB
    simp [compare_scan_results] at h1
  rw [compare_some A B hBne] at h1
  cases Option.some.inj h1
  obtain ⟨kc, hkc, hpick⟩ := List.mem_filterMap.mp he
  obtain ⟨p, hlkB, hlt, he_eq⟩ := (pickWorsened_eq_some B kc e).mp hpick
  have hAne : A ≠ [] := by
    intro hA0
    subst hA0
    simp at hkc
  refine ⟨_, compare_some B A hAne, trendEntry kc.1 p kc.2, ?_, ?_, ?_⟩
  · exact List.mem_filterMap.mpr ⟨(kc.1, p), lookup_some_mem hlkB,
      (pickImproved_eq_some A (kc.1, p) _).mpr
        ⟨kc.2, mem_lookup_of_nodup hA hkc, hlt, rfl⟩⟩
  · rw [he_eq]
    rfl
  · rw [he_eq]
    simp [trendEntry]

/-- C6 (witness): one key worsening from weight 1 to weight 2. -/
theorem compare_antisym_weight_witness :
    ∃ cBA, compare_scan_results (mkResults [("x", oneCritical)]) [("x", twoCritical)] =
        some cBA ∧
      ∃ e2 ∈ cBA.improved, e2.image = "x" ∧ e2.delta = -(1 : Int) :=
  compare_antisym_weight [("x", twoCritical)] [("x", oneCritical)] (by decide)
    ⟨[], [], [], [⟨"x", 1, 2, 1, 1, 2⟩], [], ⟨1, 0, 1⟩⟩ (by decide)
    ⟨"x", 1, 2, 1, 1, 2⟩ (by decide)

/-- C7 (amended): with a non-empty previous mapping the comparator's net
change in each of critical, high and total is the field's sum over all
keys of the current mapping minus its sum over all keys of the previous
mapping; a key on one side only still contributes to its own side's sum. -/
theorem net_change_sum_spec (A B : List (String × TrivySummary)) (h : B ≠ []) :
    ∃ c, compare_scan_results (mkResults A) B = some c ∧
      c.net_change.critical =
        (A.map (fun kc => (kc.2.critical : Int))).sum -
          (B.map (fun kc => (kc.2.critical : Int))).sum ∧
      c.net_change.high =
        (A.map (fun kc => (kc.2.high : Int))).sum -
          (B.map (fun kc => (kc.2.high : Int))).sum ∧
      c.net_change.total =
        (A.map (fun kc => (kc.2.total : Int))).sum -
          (B.map (fun kc => (kc.2.total : Int))).sum := by
  refine ⟨_, compare_some A B h, ?_, ?_, ?_⟩
  · show (sumCritical A : Int) - (sumCritical B : Int) = _
    rw [sumCritical, sumCritical, sum_field_cast, sum_field_cast]
  · show (sumHigh A : Int) - (sumHigh B : Int) = _
    rw [sumHigh, sumHigh, sum_field_cast, sum_field_cast]
  · show (sumTotal A : Int) - (sumTotal B : Int) = _
    rw [sumTotal, sumTotal, sum_field_cast, sum_field_cast]

/-- C7 (witness): disjoint one-key mappings. -/
theorem net_change_sum_spec_witness :
    ∃ c, compare_scan_results (mkResults [("a", twoCritical)]) [("b", oneCritical)] =
        some c ∧
      c.net_change.critical =
        ([("a", twoCritical)].map (fun kc => (kc.2.critical : Int))).sum -
          ([("b", oneCritical)].map (fun kc => (kc.2.critical : Int))).sum ∧
      c.net_change.high =
        ([("a", twoCritical)].map (fun kc => (kc.2.high : Int))).sum -
          ([("b", oneCritical)].map (fun kc => (kc.2.high : Int))).sum ∧
      c.net_change.total =
        ([("a", twoCritical)].map (fun kc => (kc.2.total : Int))).sum -
          ([("b", oneCritical)].map (fun kc => (kc.2.total : Int))).sum :=
  net_change_sum_spec [("a", twoCritical)] [("b", oneCritical)] (by decide)

/-- C10: with a non-empty previous mapping, every key present in both
mappings lands in exactly one of improved, worsened or unchanged and in
neither new nor removed components; a key present only in the current
mapping lands only in new components, and a key present only in the
previous mapping only in removed components. -/
theorem compare_key_partition (A B : List (String × TrivySummary))
    (hA : (A.map Prod.fst).Nodup) (hne : B ≠ []) :
    ∃ c, compare_scan_results (mkResults A) B = some c ∧
      ∀ k : String,
        ((k ∈ A.map Prod.fst ∧ k ∈ B.map Prod.fst) →
          (((∃ e ∈ c.improved, e.image = k) ∨ (∃ e ∈ c.worsened, e.image = k) ∨
              k ∈ c.unchanged) ∧
            ¬((∃ e ∈ c.improved, e.image = k) ∧ (∃ e ∈ c.worsened, e.image = k)) ∧
            ¬((∃ e ∈ c.improved, e.image = k) ∧ k ∈ c.unchanged) ∧
            ¬((∃ e ∈ c.worsened, e.image = k) ∧ k ∈ c.unchanged) ∧
            k ∉ c.new_components ∧ k ∉ c.removed_components)) ∧
        ((k ∈ A.map Prod.fst ∧ k ∉ B.map Prod.fst) →
          (k ∈ c.new_components ∧ k ∉ c.removed_components ∧
            ¬(∃ e ∈ c.improved, e.image = k) ∧ ¬(∃ e ∈ c.worsened, e.image = k) ∧
            k ∉ c.unchanged)) ∧
        ((k ∉ A.map Prod.fst ∧ k ∈ B.map Prod.fst) →
          (k ∈ c.removed_components ∧ k ∉ c.new_components ∧
            ¬(∃ e ∈ c.improved, e.image = k) ∧ ¬(∃ e ∈ c.worsened, e.image = k) ∧
            k ∉ c.unchanged)) := by
  refine ⟨_, compare_some A B hne, ?_⟩
  intro k
  refine ⟨?_, ?_, ?_⟩
  · rintro ⟨hkA, hkB⟩
    obtain ⟨cv, hcv⟩ := exists_lookup_of_mem_keys hkA
    obtain ⟨p, hp⟩ := exists_lookup_of_mem_keys hkB
    refine ⟨?_, ?_, ?_, ?_, ?_, ?_⟩
    · rcases Nat.lt_trichotomy (severityWeight cv) (severityWeight p) with hlt | heq | hgt
      · exact Or.inl ((mem_improved_iff A B hA k).mpr ⟨cv, p, hcv, hp, hlt⟩)
      · exact Or.inr (Or.inr ((mem_unchanged_iff A B hA k).mpr ⟨cv, p, hcv, hp, heq⟩))
      · exact Or.inr (Or.inl ((mem_worsened_iff A B hA k).mpr ⟨cv, p, hcv, hp, hgt⟩))
    · rintro ⟨hi, hw⟩
      obtain ⟨cv1, p1, hc1, hp1, h1⟩ := (mem_improved_iff A B hA k).mp hi
      obtain ⟨cv2, p2, hc2, hp2, h2⟩ := (mem_worsened_iff A B hA k).mp hw
      cases Option.some.inj (hc1.symm.trans hc2)
      cases Option.some.inj (hp1.symm.trans hp2)
      omega
    · rintro ⟨hi, hu⟩
      obtain ⟨cv1, p1, hc1, hp1, h1⟩ := (mem_improved_iff A B hA k).mp hi
      obtain ⟨cv2, p2, hc2, hp2, h2⟩ := (mem_unchanged_iff A B hA k).mp hu
      cases Option.some.inj (hc1.symm.trans hc2)
      cases Option.some.inj (hp1.symm.trans hp2)
      omega
    · rintro ⟨hw, hu⟩
      obtain ⟨cv1, p1, hc1, hp1, h1⟩ := (mem_worsened_iff A B hA k).mp hw
      obtain ⟨cv2, p2, hc2, hp2, h2⟩ := (mem_unchanged_iff A B hA k).mp hu
      cases Option.some.inj (hc1.symm.trans hc2)
      cases Option.some.inj (hp1.symm.trans hp2)
      omega
    · intro hmem
      obtain ⟨-, hno⟩ := (mem_new_iff A B k).mp hmem
      rw [hp] at hno
      cases hno
    · intro hmem
      obtain ⟨-, hno⟩ := (mem_removed_iff A B k).mp hmem
      rw [hcv] at hno
      cases hno
  · rintro ⟨hkA, hkB⟩
    have hBnone : B.lookup k = none := (lookup_none_iff B k).mpr hkB
    refine ⟨(mem_new_iff A B k).mpr ⟨hkA, hBnone⟩, ?_, ?_, ?_, ?_⟩
    · intro hmem
      exact hkB ((mem_removed_iff A B k).mp hmem).1
    · intro hi
      obtain ⟨cv1, p1, hc1, hp1, h1⟩ := (mem_improved_iff A B hA k).mp hi
      rw [hBnone] at hp1
      cases hp1
    · intro hw
      obtain ⟨cv1, p1, hc1, hp1, h1⟩ := (mem_worsened_iff A B hA k).mp hw
      rw [hBnone] at hp1
      cases hp1
    · intro hu
      obtain ⟨cv1, p1, hc1, hp1, h1⟩ := (mem_unchanged_iff A B hA k).mp hu
      rw [hBnone] at hp1
      cases hp1
  · rintro ⟨hkA, hkB⟩
    have hAnone : A.lookup k = none := (lookup_none_iff A k).mpr hkA
    refine ⟨(mem_removed_iff A B k).mpr ⟨hkB, hAnone⟩, ?_, ?_, ?_, ?_⟩
    · intro hmem
      exact hkA ((mem_new_iff A B k).mp hmem).1
    · intro hi
      obtain ⟨cv1, p1, hc1, hp1, h1⟩ := (mem_improved_iff A B hA k).mp hi
      rw [hAnone] at hc1
      cases hc1
    · intro hw
      obtain ⟨cv1, p1, hc1, hp1, h1⟩ := (mem_worsened_iff A B hA k).mp hw
      rw [hAnone] at hc1
      cases hc1
    · intro hu
      obtain ⟨cv1, p1, hc1, hp1, h1⟩ := (mem_unchanged_iff A B hA k).mp hu
      rw [hAnone] at hc1
      cases hc1

/-- C10 (witness): a shared key, a current-only key and a previous-only
key. -/
theorem compare_key_partition_witness :
    ∃ c, compare_scan_results
        (mkResults [("x", twoCritical), ("n", oneCritical)])
        [("x", oneCritical), ("r", oneCritical)] = some c ∧
      ∀ k : String,
        ((k ∈ [("x", twoCritical), ("n", oneCritical)].map Prod.fst ∧
            k ∈ [("x", oneCritical), ("r", oneCritical)].map Prod.fst) →
          (((∃ e ∈ c.improved, e.image = k) ∨ (∃ e ∈ c.worsened, e.image = k) ∨
              k ∈ c.unchanged) ∧
            ¬((∃ e ∈ c.improved, e.image = k) ∧ (∃ e ∈ c.worsened, e.image = k)) ∧
            ¬((∃ e ∈ c.improved, e.image = k) ∧ k ∈ c.unchanged) ∧
            ¬((∃ e ∈ c.worsened, e.image = k) ∧ k ∈ c.unchanged) ∧
            k ∉ c.new_components ∧ k ∉ c.removed_components)) ∧
        ((k ∈ [("x", twoCritical), ("n", oneCritical)].map Prod.fst ∧
            k ∉ [("x", oneCritical), ("r", oneCritical)].map Prod.fst) →
          (k ∈ c.new_components ∧ k ∉ c.removed_components ∧
            ¬(∃ e ∈ c.improved, e.image = k) ∧ ¬(∃ e ∈ c.worsened, e.image = k) ∧
            k ∉ c.unchanged)) ∧
        ((k ∉ [("x", twoCritical), ("n", oneCritical)].map Prod.fst ∧
            k ∈ [("x", oneCritical), ("r", oneCritical)].map Prod.fst) →
          (k ∈ c.removed_components ∧ k ∉ c.new_components ∧
            ¬(∃ e ∈ c.improved, e.image = k) ∧ ¬(∃ e ∈ c.worsened, e.image = k) ∧
            k ∉ c.unchanged)) :=
  compare_key_partition [("x", twoCritical), ("n", oneCritical)]
    [("x", oneCritical), ("r", oneCritical)] (by decide) (by decide)

end MCE
